import Mathlib

/-!
Verification of the shaderLoader particle system (src/Main.cpp) against its
natural-language specification.  The program is a single translation unit:
compile-time constants, a particle-seeding loop, GL resource setup, a frame
loop, and shutdown.  The embedding below follows the source line by line;
GPU/windowing calls are modelled as abstract events, numeric code over ℚ/ℕ.
-/

namespace ShaderLoader

/-- Main.cpp line 13: `const int NUM_PARTICLES = 1000;`. -/
def NUM_PARTICLES : Nat := 1000

/-- Main.cpp line 14: `const int WORK_GROUP_SIZE = 10;`. -/
def WORK_GROUP_SIZE : Nat := 10

/-- Main.cpp line 231: the first argument of
`glDispatchCompute(NUM_PARTICLES +9/ WORK_GROUP_SIZE, 1, 1)`.
C++ operator precedence parses this as `NUM_PARTICLES + (9 / WORK_GROUP_SIZE)`
with integer division; both operands are non-negative ints, so ℕ division
matches the C++ semantics exactly. -/
def dispatchGroupsX (n g : Nat) : Nat := n + 9 / g

/-- The work-group count the spec demands: `ceil(N / groupSize)`, which for
naturals is `(n + g - 1) / g`.  This definition follows the spec's words and
exists only to be compared against `dispatchGroupsX` from the source. -/
def specCeilGroups (n g : Nat) : Nat := (n + g - 1) / g

/-- One observable action of `main`.  Constructors are listed in source
order; the frame-loop and shutdown traces below pick them out. -/
inductive GLStep where
  | clearFramebuffer      -- line 176: glClear
  | setPointSize          -- line 177: glPointSize
  | computeDeltaTime      -- lines 180-182: chrono delta
  | useComputeProgram     -- line 185: glUseProgram(computeShaderProgram)
  | bindSSBO              -- line 188: glBindBuffer(GL_SHADER_STORAGE_BUFFER, ssbo)
  | debugMapRead          -- lines 191-204: glMapBuffer + print + glUnmapBuffer
  | unbindSSBO            -- line 207: glBindBuffer(GL_SHADER_STORAGE_BUFFER, 0)
  | copySSBOtoVBO         -- lines 209-211: glCopyBufferSubData SSBO -> VBO
  | lookupUniformLocs     -- lines 214-215: glGetUniformLocation x2
  | pushUniforms          -- lines 217-229: glUniform2f / glUniform1f (guarded)
  | bindBufferBase        -- line 230: glBindBufferBase
  | dispatchCompute       -- line 231: glDispatchCompute
  | useRenderProgram      -- line 237: glUseProgram(renderShaderProgram)
  | bindVAO               -- line 238: glBindVertexArray
  | drawArrays            -- line 239: glDrawArrays(GL_POINTS, 0, NUM_PARTICLES)
  | swapBuffers           -- line 242: glfwSwapBuffers
  | pollEvents            -- line 243: glfwPollEvents
  | clearErrorFlag        -- line 246: glGetError
  | memoryBarrier         -- line 248: glMemoryBarrier(GL_SHADER_STORAGE_BARRIER_BIT)
  | deleteResources       -- lines 253-260: glDelete* calls
  | glfwTerminateCall     -- line 261: glfwTerminate
  deriving DecidableEq

/-- The body of the `while (!glfwWindowShouldClose(window))` loop,
Main.cpp lines 173-244, in the order the statements execute. -/
def frameSteps : List GLStep :=
  [ GLStep.clearFramebuffer
  , GLStep.setPointSize
  , GLStep.computeDeltaTime
  , GLStep.useComputeProgram
  , GLStep.bindSSBO
  , GLStep.debugMapRead
  , GLStep.unbindSSBO
  , GLStep.copySSBOtoVBO
  , GLStep.lookupUniformLocs
  , GLStep.pushUniforms
  , GLStep.bindBufferBase
  , GLStep.dispatchCompute
  , GLStep.useRenderProgram
  , GLStep.bindVAO
  , GLStep.drawArrays
  , GLStep.swapBuffers
  , GLStep.pollEvents ]

/-- Main.cpp lines 246-261: the statements after the loop exits. -/
def shutdownSteps : List GLStep :=
  [ GLStep.clearErrorFlag
  , GLStep.memoryBarrier
  , GLStep.deleteResources
  , GLStep.glfwTerminateCall ]

/-- The whole post-initialization trace of `main` when the loop runs `k`
iterations: `k` copies of the loop body followed by shutdown. -/
def programTrace (k : Nat) : List GLStep :=
  (List.replicate k frameSteps).flatten ++ shutdownSteps

/-- Main.cpp lines 17-23: the `Particle` record.  glm float vectors are
modelled componentwise over ℚ. -/
structure Particle where
  position : ℚ × ℚ
  velocity : ℚ × ℚ
  color    : ℚ × ℚ × ℚ × ℚ
  age      : ℚ
  lifeTime : ℚ
  deriving DecidableEq

/-- Main.cpp line 83: `float randomSpeedFactor = 0.2f + 0.005f;`. -/
def randomSpeedFactor : ℚ := 2/10 + 5/1000

/-- The values one iteration of the seeding loop (Main.cpp lines 75-89)
draws from the Mersenne Twister: `distr(eng)` twice for the direction,
`colorDistr(eng)` three times, `lifeTimeDistr(eng)` once. -/
structure ParticleDraw where
  dirX   : ℚ
  dirY   : ℚ
  colR   : ℚ
  colG   : ℚ
  colB   : ℚ
  life   : ℚ
  deriving DecidableEq

/-- Ranges the source's distributions guarantee for one draw (lines 70-72:
direction components in [-1,1], colors in [0,1], lifetime in [1.5, 3.0]),
together with `nrm` being the Euclidean length of the direction vector.
`glm::normalize` divides by `sqrt(dirX² + dirY²)`, which is irrational in
general, so the length is carried as a separate value `nrm` constrained by
`nrm² = dirX² + dirY²`; `0 < nrm` states that the drawn direction is not
the zero vector (on which `glm::normalize` is undefined). -/
def DrawOK (d : ParticleDraw) (nrm : ℚ) : Prop :=
  -1 ≤ d.dirX ∧ d.dirX ≤ 1 ∧ -1 ≤ d.dirY ∧ d.dirY ≤ 1 ∧
  0 ≤ d.colR ∧ d.colR ≤ 1 ∧ 0 ≤ d.colG ∧ d.colG ≤ 1 ∧
  0 ≤ d.colB ∧ d.colB ≤ 1 ∧
  3/2 ≤ d.life ∧ d.life ≤ 3 ∧
  0 < nrm ∧ nrm ^ 2 = d.dirX ^ 2 + d.dirY ^ 2

instance (d : ParticleDraw) (nrm : ℚ) : Decidable (DrawOK d nrm) := by
  unfold DrawOK; infer_instance

/-- One iteration of the seeding loop, Main.cpp lines 75-89: normalize the
drawn direction, set position to the literal `glm::vec2(20,20)`, scale the
unit direction by `randomSpeedFactor`, take the drawn color with alpha 1,
age 0, and the drawn lifetime.  `nrm` is the length of `(dirX, dirY)`. -/
def initParticle (d : ParticleDraw) (nrm : ℚ) : Particle :=
  { position := (20, 20)
  , velocity := (d.dirX / nrm * randomSpeedFactor, d.dirY / nrm * randomSpeedFactor)
  , color    := (d.colR, d.colG, d.colB, 1)
  , age      := 0
  , lifeTime := d.life }

/-- The whole seeding loop over the particle vector: one particle per draw
(the source runs exactly `NUM_PARTICLES` iterations; the draw list is the
prefix of the Mersenne Twister stream it consumes). -/
def initParticles (ds : List (ParticleDraw × ℚ)) : List Particle :=
  ds.map fun p => initParticle p.1 p.2

/-- Main.cpp lines 265-271: the cursor-position callback.  Given the raw
pixel coordinates `(xpos, ypos)` and the framebuffer size obtained from
`glfwGetFramebufferSize`, it stores
`((xpos / width) * 2 - 1, 1 - (ypos / height) * 2)` into the global
`mousePos`; the returned pair is that stored value. -/
def mouse_callback (xpos ypos width height : ℚ) : ℚ × ℚ :=
  ((xpos / width) * 2 - 1, 1 - (ypos / height) * 2)

/-- A value pushed by `glUniform2f` / `glUniform1f` in the loop body
(Main.cpp lines 218 and 225). -/
inductive UniformPush where
  | mousePosVal (x y : ℚ)
  | deltaTimeVal (t : ℚ)
  deriving DecidableEq

/-- A diagnostic line written to `std::cerr` by the uniform-update checks. -/
inductive LogMsg where
  | mousePosNotFound   -- line 221: "mousePos uniform location not found."
  | deltaTimeNotFound  -- line 228: "deltaTime uniform location not found."
  deriving DecidableEq

/-- The observable outcome of the uniform-update block: which uniform
values were pushed to the GPU and which diagnostics were logged. -/
structure UniformOutcome where
  pushes : List UniformPush
  log    : List LogMsg
  deriving DecidableEq

/-- Main.cpp lines 213-229: `glGetUniformLocation` returns the two
locations (modelled as the `Int` inputs; GL returns -1 for a name that is
not an active uniform); each value is pushed when its location is not -1
and a diagnostic is logged otherwise.  The block always falls through to
the next statement — there is no abort path. -/
def updateUniforms (mousePosLoc deltaTimeLoc : Int) (mouse : ℚ × ℚ)
    (dt : ℚ) : UniformOutcome :=
  let mp : List UniformPush × List LogMsg :=
    if mousePosLoc ≠ -1 then ([UniformPush.mousePosVal mouse.1 mouse.2], [])
    else ([], [LogMsg.mousePosNotFound])
  let dl : List UniformPush × List LogMsg :=
    if deltaTimeLoc ≠ -1 then ([UniformPush.deltaTimeVal dt], [])
    else ([], [LogMsg.deltaTimeNotFound])
  ⟨mp.1 ++ dl.1, mp.2 ++ dl.2⟩

/-- A resource created during the startup sequence of `main`
(lines 35-58): the initialized GLFW library and the created window. -/
inductive StartupResource where
  | glfwLibrary
  | windowHandle
  deriving DecidableEq

/-- Main.cpp lines 35-58, the three guarded startup steps, driven by
whether `glfwInit`, `glfwCreateWindow` and `glewInit` succeed.  On a
failure the function returns `some (exitCode, created, released)`: the
early `return -1`'s exit code, the resources created before the failing
call, and the resources released before returning (`glfwTerminate` is
called only on the window-creation failure path; the GLEW path returns
with no cleanup).  `none` means startup proceeds past line 58. -/
def initResources : Bool → Bool → Bool →
    Option (Int × List StartupResource × List StartupResource)
  | false, _, _ => some (-1, [], [])
  | true, false, _ =>
      some (-1, [StartupResource.glfwLibrary], [StartupResource.glfwLibrary])
  | true, true, false =>
      some (-1, [StartupResource.glfwLibrary, StartupResource.windowHandle], [])
  | true, true, true => none

/-- The policy C8 claims (following the spec's words, for comparison with
`initResources` from the source): every startup failure exits non-zero and
releases everything created before the failure. -/
def ReleasesAllOnInitFailure : Prop :=
  ∀ g w e code created released,
    initResources g w e = some (code, created, released) →
    code ≠ 0 ∧ ∀ r ∈ created, r ∈ released

/-- Main.cpp lines 273-279.  The filesystem is abstracted as a partial map
from paths to file contents.  `std::ifstream` on a missing or unopenable
path leaves the stream in a failed state, `rdbuf()` then transfers nothing
into the stringstream, and `str()` yields the empty string; no exception
escapes and the function's only output channel is the returned string —
there is no error flag. -/
def ReadShaderFile (fileContents : String → Option String)
    (shaderPath : String) : String :=
  match fileContents shaderPath with
  | some text => text
  | none => ""

/-- Main.cpp line 92: the source text `main` hands to `CompileShader` for
the compute stage. -/
def computeShaderSourceOf (fileContents : String → Option String) : String :=
  ReadShaderFile fileContents "compute_shader.glsl"

end ShaderLoader

namespace ShaderLoader

/-- C1: the claim says the dispatch requests ceil(N/groupSize) = 100
work-groups; the source expression `NUM_PARTICLES +9/ WORK_GROUP_SIZE`
actually evaluates to 1000 + 9/10 = 1000, ten times what the spec and the
constants' own comments intend.  This theorem evaluates the code at the
failing input N = 1000, groupSize = 10. -/
theorem dispatch_groups_is_1000_not_100 :
    dispatchGroupsX NUM_PARTICLES WORK_GROUP_SIZE = 1000 ∧
    specCeilGroups NUM_PARTICLES WORK_GROUP_SIZE = 100 ∧
    dispatchGroupsX NUM_PARTICLES WORK_GROUP_SIZE ≠
      specCeilGroups NUM_PARTICLES WORK_GROUP_SIZE := by
  refine ⟨rfl, rfl, ?_⟩
  decide

/-- C2 counterexample: the claim puts the SSBO-to-VBO copy after the compute
dispatch of the same iteration, but in the source the copy (lines 209-211)
executes before the uniform push (lines 213-229) and before the dispatch
(line 231), so the dispatch does not precede the copy in the loop body. -/
theorem copy_not_after_dispatch :
    ¬ frameSteps.indexOf GLStep.dispatchCompute <
        frameSteps.indexOf GLStep.copySSBOtoVBO := by
  decide

/-- C2 amended: each iteration of the Running loop performs, in this order,
clear framebuffer, compute elapsed time, copy the GPU State Buffer into the
buffer the Render Stage reads from, push uniforms, dispatch the compute
stage, then draw — the copy precedes the dispatch, so the draw call reads
the previous iteration's compute results.  Each of these steps occurs
exactly once per iteration. -/
theorem frame_loop_order :
    frameSteps.indexOf GLStep.clearFramebuffer <
      frameSteps.indexOf GLStep.computeDeltaTime ∧
    frameSteps.indexOf GLStep.computeDeltaTime <
      frameSteps.indexOf GLStep.copySSBOtoVBO ∧
    frameSteps.indexOf GLStep.copySSBOtoVBO <
      frameSteps.indexOf GLStep.pushUniforms ∧
    frameSteps.indexOf GLStep.pushUniforms <
      frameSteps.indexOf GLStep.dispatchCompute ∧
    frameSteps.indexOf GLStep.dispatchCompute <
      frameSteps.indexOf GLStep.drawArrays ∧
    frameSteps.count GLStep.clearFramebuffer = 1 ∧
    frameSteps.count GLStep.computeDeltaTime = 1 ∧
    frameSteps.count GLStep.copySSBOtoVBO = 1 ∧
    frameSteps.count GLStep.pushUniforms = 1 ∧
    frameSteps.count GLStep.dispatchCompute = 1 ∧
    frameSteps.count GLStep.drawArrays = 1 := by
  decide

lemma count_barrier_flatten_replicate (k : Nat) :
    ((List.replicate k frameSteps).flatten).count GLStep.memoryBarrier = 0 := by
  induction k with
  | zero => rfl
  | succ n ih =>
      rw [List.replicate_succ, List.flatten_cons, List.count_append, ih]
      decide

/-- C3: no memory/execution barrier is issued inside the Running loop — in
particular none between the compute dispatch and the draw call — and over a
whole run of `k` iterations the single `glMemoryBarrier` call sits in the
shutdown sequence, after the loop has exited. -/
theorem barrier_only_at_shutdown (k : Nat) :
    GLStep.memoryBarrier ∉ frameSteps ∧
    GLStep.memoryBarrier ∈ shutdownSteps ∧
    (programTrace k).count GLStep.memoryBarrier = 1 := by
  refine ⟨by decide, by decide, ?_⟩
  rw [programTrace, List.count_append, count_barrier_flatten_replicate]
  decide

/-- Witness for C3 at a concrete iteration count. -/
theorem barrier_only_at_shutdown_witness :
    (programTrace 2).count GLStep.memoryBarrier = 1 :=
  (barrier_only_at_shutdown 2).2.2

/-- C4: every particle produced by the seeding loop has age exactly 0,
lifetime inside the configured [1.5, 3.0] range, and velocity of magnitude
exactly `randomSpeedFactor` (stated as equality of squared Euclidean norms,
which for non-negative magnitudes is equivalent): the velocity is the drawn
direction normalized to unit length and scaled by that factor. -/
theorem init_age_life_speed (ds : List (ParticleDraw × ℚ)) (q : Particle)
    (hq : q ∈ initParticles ds) (h : ∀ p ∈ ds, DrawOK p.1 p.2) :
    q.age = 0 ∧ 3/2 ≤ q.lifeTime ∧ q.lifeTime ≤ 3 ∧
    q.velocity.1 ^ 2 + q.velocity.2 ^ 2 = randomSpeedFactor ^ 2 := by
  obtain ⟨⟨d, n⟩, hmem, rfl⟩ := List.mem_map.mp hq
  obtain ⟨_, _, _, _, _, _, _, _, _, _, hl1, hl2, hn, hsq⟩ := h _ hmem
  have hne : n ≠ 0 := ne_of_gt hn
  refine ⟨rfl, hl1, hl2, ?_⟩
  show (d.dirX / n * randomSpeedFactor) ^ 2 +
      (d.dirY / n * randomSpeedFactor) ^ 2 = randomSpeedFactor ^ 2
  calc (d.dirX / n * randomSpeedFactor) ^ 2 +
        (d.dirY / n * randomSpeedFactor) ^ 2
      = (d.dirX ^ 2 + d.dirY ^ 2) / n ^ 2 * randomSpeedFactor ^ 2 := by ring
    _ = n ^ 2 / n ^ 2 * randomSpeedFactor ^ 2 := by rw [hsq]
    _ = randomSpeedFactor ^ 2 := by
        rw [div_self (pow_ne_zero 2 hne), one_mul]

/-- Witness for C4: the draw (0.6, 0.8) has length exactly 1, a rational
point on the unit circle, with lifetime 2 inside [1.5, 3.0]. -/
theorem init_age_life_speed_witness :
    DrawOK ⟨3/5, 4/5, 0, 1/2, 1, 2⟩ 1 ∧
    ((initParticle ⟨3/5, 4/5, 0, 1/2, 1, 2⟩ 1).age = 0 ∧
     3/2 ≤ (initParticle ⟨3/5, 4/5, 0, 1/2, 1, 2⟩ 1).lifeTime ∧
     (initParticle ⟨3/5, 4/5, 0, 1/2, 1, 2⟩ 1).lifeTime ≤ 3 ∧
     (initParticle ⟨3/5, 4/5, 0, 1/2, 1, 2⟩ 1).velocity.1 ^ 2 +
       (initParticle ⟨3/5, 4/5, 0, 1/2, 1, 2⟩ 1).velocity.2 ^ 2 =
       randomSpeedFactor ^ 2) :=
  ⟨by norm_num [DrawOK],
   init_age_life_speed [(⟨3/5, 4/5, 0, 1/2, 1, 2⟩, 1)] _
     (List.mem_singleton.mpr rfl)
     (by intro p hp; rw [List.mem_singleton.mp hp]; norm_num [DrawOK])⟩

/-- C5: every particle the seeding loop produces starts at the literal
coordinate `glm::vec2(20, 20)` (Main.cpp line 80) — the same fixed origin
for all particles, whatever the random draws; the loop never reads the
global `mousePos`, so the value is independent of the pointer position
despite the adjacent comment claiming a mouse-position start. -/
theorem init_position_fixed (ds : List (ParticleDraw × ℚ)) (q : Particle)
    (hq : q ∈ initParticles ds) : q.position = (20, 20) := by
  obtain ⟨⟨d, n⟩, _, rfl⟩ := List.mem_map.mp hq
  rfl

/-- Witness for C5 at a concrete one-draw seeding. -/
theorem init_position_fixed_witness :
    (initParticle ⟨1, 0, 1, 0, 0, 2⟩ 1).position = (20, 20) :=
  init_position_fixed [(⟨1, 0, 1, 0, 0, 2⟩, 1)] _ (List.mem_singleton.mpr rfl)

/-- C10: seeding is not a deterministic function of the program's inputs.
The engine is seeded from `std::random_device` (Main.cpp lines 67-68), an
entropy source read anew on each run, and there is no fixed or configurable
seed; the particle produced at an index is a non-constant function of the
entropy-dependent draw stream, so two executions can give the same particle
index different lifetimes (and likewise velocities and colors): here two
admissible draws that differ only in the `lifeTimeDistr` sample yield
different particles. -/
theorem seeding_depends_on_entropy :
    ∃ d1 d2 : ParticleDraw, ∃ n1 n2 : ℚ,
      DrawOK d1 n1 ∧ DrawOK d2 n2 ∧
      initParticle d1 n1 ≠ initParticle d2 n2 := by
  refine ⟨⟨1, 0, 0, 0, 0, 2⟩, ⟨1, 0, 0, 0, 0, 5/2⟩, 1, 1,
    by norm_num [DrawOK], by norm_num [DrawOK], ?_⟩
  intro h
  have hlife := congrArg Particle.lifeTime h
  norm_num [initParticle] at hlife

/-- C6: for any surface of positive pixel dimensions, the callback maps
`(x, y)` to `(2x/width - 1, 1 - 2y/height)`; hence the center maps to
`(0,0)`, the top-left pixel `(0,0)` to `(-1,1)`, and the bottom-right
corner `(width, height)` to `(1,-1)`. -/
theorem mouse_callback_ndc (xpos ypos width height : ℚ)
    (hw : 0 < width) (hh : 0 < height) :
    mouse_callback xpos ypos width height =
      (2 * xpos / width - 1, 1 - 2 * ypos / height) ∧
    mouse_callback (width / 2) (height / 2) width height = (0, 0) ∧
    mouse_callback 0 0 width height = (-1, 1) ∧
    mouse_callback width height width height = (1, -1) := by
  have hw' : width ≠ 0 := ne_of_gt hw
  have hh' : height ≠ 0 := ne_of_gt hh
  refine ⟨?_, ?_, ?_, ?_⟩ <;>
    simp only [mouse_callback, Prod.mk.injEq] <;>
    constructor <;> field_simp <;> ring

/-- Witness for C6 on the source's 640 x 480 surface. -/
theorem mouse_callback_ndc_witness :
    mouse_callback 320 240 640 480 = (0, 0) ∧
    mouse_callback 0 0 640 480 = (-1, 1) ∧
    mouse_callback 640 480 640 480 = (1, -1) := by
  have h := mouse_callback_ndc 0 0 640 480 (by norm_num) (by norm_num)
  have hc := h.2.1
  norm_num at hc
  exact ⟨hc, h.2.2.1, h.2.2.2⟩

/-- C7: in every frame, a uniform whose location lookup returned the -1
sentinel gets a diagnostic logged and its value is not pushed, while a
uniform whose lookup succeeded is pushed and logs nothing; the block is a
total function — execution continues into the dispatch either way, and a
miss on one uniform does not disturb the other. -/
theorem uniform_soft_fail (mousePosLoc deltaTimeLoc : Int) (mouse : ℚ × ℚ)
    (dt : ℚ) :
    (mousePosLoc = -1 →
      LogMsg.mousePosNotFound ∈
        (updateUniforms mousePosLoc deltaTimeLoc mouse dt).log ∧
      ∀ x y, UniformPush.mousePosVal x y ∉
        (updateUniforms mousePosLoc deltaTimeLoc mouse dt).pushes) ∧
    (mousePosLoc ≠ -1 →
      UniformPush.mousePosVal mouse.1 mouse.2 ∈
        (updateUniforms mousePosLoc deltaTimeLoc mouse dt).pushes ∧
      LogMsg.mousePosNotFound ∉
        (updateUniforms mousePosLoc deltaTimeLoc mouse dt).log) ∧
    (deltaTimeLoc = -1 →
      LogMsg.deltaTimeNotFound ∈
        (updateUniforms mousePosLoc deltaTimeLoc mouse dt).log ∧
      ∀ t, UniformPush.deltaTimeVal t ∉
        (updateUniforms mousePosLoc deltaTimeLoc mouse dt).pushes) ∧
    (deltaTimeLoc ≠ -1 →
      UniformPush.deltaTimeVal dt ∈
        (updateUniforms mousePosLoc deltaTimeLoc mouse dt).pushes ∧
      LogMsg.deltaTimeNotFound ∉
        (updateUniforms mousePosLoc deltaTimeLoc mouse dt).log) := by
  rcases eq_or_ne mousePosLoc (-1) with hm | hm <;>
    rcases eq_or_ne deltaTimeLoc (-1) with hd | hd <;>
      simp [updateUniforms, hm, hd]

/-- Witness for C7: mousePos location missing, deltaTime location found. -/
theorem uniform_soft_fail_witness :
    LogMsg.mousePosNotFound ∈ (updateUniforms (-1) 5 (0, 0) (1/60)).log ∧
    UniformPush.deltaTimeVal (1/60) ∈
      (updateUniforms (-1) 5 (0, 0) (1/60)).pushes :=
  ⟨((uniform_soft_fail (-1) 5 (0, 0) (1/60)).1 rfl).1,
   ((uniform_soft_fail (-1) 5 (0, 0) (1/60)).2.2.2 (by decide)).1⟩

/-- C8 counterexample: when `glfwInit` and `glfwCreateWindow` succeed but
`glewInit` fails (Main.cpp lines 55-58), `main` returns -1 without calling
`glfwTerminate` or destroying the window, so the created resources are not
all released before exiting — the claimed release-before-exit policy fails
on this path. -/
theorem glew_failure_releases_nothing : ¬ ReleasesAllOnInitFailure := by
  intro h
  obtain ⟨-, hrel⟩ := h true true false (-1)
    [StartupResource.glfwLibrary, StartupResource.windowHandle] [] rfl
  exact (List.not_mem_nil StartupResource.windowHandle)
    (hrel StartupResource.windowHandle (by simp))

/-- C8 amended: every resource-initialization failure makes `main` return
immediately with the non-zero exit code -1, and nothing is ever released
that was not created; but the release-before-exit is per-path: on GLFW-init
failure nothing was created and nothing is released, on window-creation
failure the GLFW library is created and released via `glfwTerminate`, and
on GPU-loader (GLEW) failure the GLFW library and the window were created
yet nothing is released. -/
theorem init_failure_exit_nonzero (g w e : Bool)
    (out : Int × List StartupResource × List StartupResource)
    (h : initResources g w e = some out) :
    out.1 = -1 ∧ out.1 ≠ 0 ∧ out.2.2 ⊆ out.2.1 ∧
    (out = (-1, [], []) ∨
     out = (-1, [StartupResource.glfwLibrary], [StartupResource.glfwLibrary]) ∨
     out = (-1, [StartupResource.glfwLibrary, StartupResource.windowHandle],
            [])) := by
  cases g <;> cases w <;> cases e <;>
    first
    | exact Option.noConfusion h
    | (injection h with h; subst h; exact ⟨rfl, by decide, by simp, by simp⟩)

/-- Witness for C8's amended statement on the GLFW-init failure path. -/
theorem init_failure_exit_nonzero_witness :
    initResources false true true = some (-1, [], []) ∧ (-1 : Int) ≠ 0 :=
  ⟨rfl, (init_failure_exit_nonzero false true true (-1, [], []) rfl).2.1⟩

/-- C9: when the shader file at the given path is absent (the filesystem
map has no entry), `ReadShaderFile` returns the empty string — its only
output channel, so no error is signalled — and the compute-shader compile
path in `main` then proceeds with empty source text. -/
theorem read_missing_file_empty (fileContents : String → Option String)
    (path : String) (hp : fileContents path = none)
    (hc : fileContents "compute_shader.glsl" = none) :
    ReadShaderFile fileContents path = "" ∧
    computeShaderSourceOf fileContents = "" := by
  constructor
  · simp [ReadShaderFile, hp]
  · simp [computeShaderSourceOf, ReadShaderFile, hc]

/-- Witness for C9 on the empty filesystem. -/
theorem read_missing_file_empty_witness :
    ReadShaderFile (fun _ => none) "vertex_shader.glsl" = "" ∧
    computeShaderSourceOf (fun _ => none) = "" :=
  read_missing_file_empty (fun _ => none) "vertex_shader.glsl" rfl rfl

end ShaderLoader
